import Mathlib

/-!
Verification of the Friend Orbit relationship decay and suggestion engine.

The repository splits into a React frontend (under `frontend/src`, embedded
below from its JSX source) and a FastAPI backend (`backend/server.py`) that
holds the gravity model, zone classifier and suggestion engine.  The backend
file is not part of the available sources, so those components are modelled
from the specification (each such definition carries a doc comment starting
with `Modelled from the spec:`).  Frontend computations (zone grouping on the
universe map, gravity colour classification, the two relationship-creation
payload builders) are translated directly from the JSX files.

Scores are rational numbers (the spec declares `gravity_score` a float in
[0, 100]; exact rational arithmetic stands in for IEEE floats, which the
frontend never exercises beyond comparisons and additions of small decimals).
Timestamps are natural numbers counting minutes; a calendar day is 1440
minutes and the calendar day of a timestamp `t` is `t / 1440`.
-/

/-- The three relationship types of the data model. -/
inductive RelType
  | partner
  | family
  | friend
deriving DecidableEq, Repr

/-- The four behavioural archetypes. -/
inductive Archetype
  | Anchor
  | Spark
  | Sage
  | Comet
deriving DecidableEq, Repr

/-- The user-level drift strictness setting. -/
inductive Strictness
  | gentle
  | normal
  | strict
deriving DecidableEq, Repr

/-- Minutes in a calendar day; the calendar day of a timestamp `t` is `t / dayLen`. -/
def dayLen : Nat := 1440

/-- Modelled from the spec: the persisted `people` record ("planet") of §3,
restricted to the fields the gravity model and suggestion engine read.
`archetype` is optional (null only occurs for partners), timestamps are
optional minutes-since-epoch values. -/
structure Relationship where
  id : Nat
  relationship_type : RelType
  archetype : Option Archetype
  gravity_score : ℚ
  pinned : Bool
  archived : Bool
  cadence_days : Nat
  last_interaction : Option Nat
  last_decay_applied : Option Nat
  created_at : Nat
deriving DecidableEq, Repr

/-- Modelled from the spec: `clamp` restricts a score to the domain [0, 100]
(§3 invariant, §8 first property). -/
def clamp (s : ℚ) : ℚ := if s < 0 then 0 else if 100 < s then 100 else s

/-- Modelled from the spec: per-type base decay rate (points per day).  The
exact magnitudes are calibration constants; the hard contract of §4.1/§9 is
the strict ordering partner < family < friend. -/
def base_rate : RelType → ℚ
  | .partner => 2
  | .family => 3
  | .friend => 5

/-- Modelled from the spec: archetype decay multiplier — Anchor slows decay,
Spark and Comet accelerate it, Sage is neutral (§4.1); a missing archetype
(partner) is neutral. -/
def archetype_multiplier : Option Archetype → ℚ
  | some .Anchor => 1 / 2
  | some .Spark => 3 / 2
  | some .Sage => 1
  | some .Comet => 3 / 2
  | none => 1

/-- Modelled from the spec: strictness multiplier, gentle < normal < strict (§4.1). -/
def strictness_multiplier : Strictness → ℚ
  | .gentle => 1 / 2
  | .normal => 1
  | .strict => 3 / 2

/-- Modelled from the spec: the combined decay rate of §4.1,
`base_rate * archetype_multiplier * strictness_multiplier`. -/
def decay_rate (t : RelType) (a : Option Archetype) (st : Strictness) : ℚ :=
  base_rate t * archetype_multiplier a * strictness_multiplier st

/-- Modelled from the spec: the decay baseline of §4.1,
`max(last_interaction, last_decay_applied, relationship_creation)`; a
relationship never contacted decays from its creation timestamp (§4.1 edge
cases). -/
def decayBaseline (r : Relationship) : Nat :=
  max r.created_at
    (max (r.last_interaction.getD r.created_at) (r.last_decay_applied.getD r.created_at))

/-- Modelled from the spec: elapsed whole calendar days between the decay
baseline and `now` (§4.1); only a day-boundary crossing counts, so repeated
invocations within one calendar day see zero elapsed days. -/
def daysElapsed (r : Relationship) (now : Nat) : Nat :=
  now / dayLen - decayBaseline r / dayLen

/-- Modelled from the spec: `apply_decay(relationship, now, strictness)` of
§4.1.  Pinned or archived relationships are exempt; if fewer than one whole
day elapsed the call is a pure no-op (the timestamp is not mutated);
otherwise the score drops by `decay_rate * days_elapsed`, clamped to
[0, 100], and `last_decay_applied` is set to `now`. -/
def apply_decay (r : Relationship) (now : Nat) (st : Strictness) : Relationship :=
  if r.pinned || r.archived then r
  else if daysElapsed r now < 1 then r
  else
    { r with
      gravity_score :=
        clamp (r.gravity_score -
          decay_rate r.relationship_type r.archetype st * (daysElapsed r now : ℚ))
      last_decay_applied := some now }

/-- Modelled from the spec: the fixed interaction boost increment (§4.2,
policy constant +15). -/
def interactionBoost : ℚ := 15

/-- Modelled from the spec: `apply_interaction(relationship, now)` of §4.1 —
adds the fixed boost clamped to [0, 100], sets `last_interaction = now`, and
resets the decay baseline so the relationship counts as freshly contacted.
It does not consult `pinned`: pinned relationships still accept boosts. -/
def apply_interaction (r : Relationship) (now : Nat) : Relationship :=
  { r with
    gravity_score := clamp (r.gravity_score + interactionBoost)
    last_interaction := some now
    last_decay_applied := some now }

/-- The three proximity zones of §4.2. -/
inductive Zone
  | inner
  | goldilocks
  | outer
deriving DecidableEq, Repr

/-- Modelled from the spec: the backend zone classifier of §4.2 —
score ≥ 60 is inner, 30 ≤ score < 60 is goldilocks, score < 30 is outer. -/
def zone (s : ℚ) : Zone :=
  if 60 ≤ s then .inner
  else if 30 ≤ s then .goldilocks
  else .outer

/-- The zone-grouping predicate of `UniverseMap.planetPositions`
(UniverseMap.jsx line 23): `p.gravity_score >= 60`. -/
def universeInnerPred (s : ℚ) : Bool := 60 ≤ s

/-- The zone-grouping predicate of `UniverseMap.planetPositions`
(UniverseMap.jsx line 24): `p.gravity_score >= 30 && p.gravity_score < 60`. -/
def universeGoldilocksPred (s : ℚ) : Bool := 30 ≤ s && s < 60

/-- The zone-grouping predicate of `UniverseMap.planetPositions`
(UniverseMap.jsx line 25): `p.gravity_score < 30`. -/
def universeOuterPred (s : ℚ) : Bool := s < 30

/-- The three gravity-meter colour classes returned by
`PersonProfile.getGravityColor` (PersonProfile.jsx lines 140-144); each
constructor stands for the css class string of the same name. -/
inductive GravityColor
  | gravityHigh
  | gravityMedium
  | gravityLow
deriving DecidableEq, Repr

/-- `PersonProfile.getGravityColor` (PersonProfile.jsx lines 140-144):
score ≥ 60 is gravity-high, score ≥ 30 is gravity-medium, otherwise
gravity-low. -/
def getGravityColor (score : ℚ) : GravityColor :=
  if 60 ≤ score then .gravityHigh
  else if 30 ≤ score then .gravityMedium
  else .gravityLow

/-- `UniverseMap.planetPositions` (UniverseMap.jsx lines 16-70) restricted to
the data the zone grouping computes: the inner, goldilocks and outer groups
are pushed onto the positions list in that order, each entry keeping its
person.  The x/y placement (trigonometry on the group index and a hash of the
id) does not affect which people appear and is omitted. -/
def planetPositions (people : List Relationship) : List Relationship :=
  people.filter (fun p => universeInnerPred p.gravity_score) ++
  people.filter (fun p => universeGoldilocksPred p.gravity_score) ++
  people.filter (fun p => universeOuterPred p.gravity_score)

/-- The creation payload posted to `POST /api/people`, restricted to the
fields both creation paths compute (AddPlanetModal.handleSubmit and
AddPlanetForm.handleSubmit). -/
structure PersonPayload where
  name : String
  relationship_type : RelType
  relationship_subtype : Option String
  archetype : Option Archetype
  cadence_days : Nat
  tags : List String
deriving DecidableEq, Repr

/-- The payload built by `AddPlanetModal.handleSubmit` (universe-page modal,
lines 40-47): subtype only for family, `archetype: activeTab === 'partner' ?
null : formData.archetype`, cadence 1/7/14 by type.  `formData.archetype` is
always one of the four radio values (initialised to Anchor), so it is
modelled as an `Archetype`. -/
def addPlanetModalPayload (name : String) (activeTab : RelType)
    (subtype : String) (archetype : Archetype) (tags : List String) : PersonPayload :=
  { name := name.trim
    relationship_type := activeTab
    relationship_subtype := if activeTab = .family then some subtype else none
    archetype := if activeTab = .partner then none else some archetype
    cadence_days := if activeTab = .partner then 1 else if activeTab = .family then 7 else 14
    tags := tags }

/-- The payload built by `AddPlanetForm.handleSubmit` (onboarding form, lines
36-42): subtype only for family, `archetype: formData.archetype || 'Anchor'`
(never null — `formData.archetype` is one of the four radio values,
initialised to Anchor, so the `|| 'Anchor'` fallback never fires), cadence
1/7/14 by type, and no tags field. -/
def addPlanetFormPayload (name : String) (type : RelType)
    (subtype : String) (archetype : Archetype) : PersonPayload :=
  { name := name.trim
    relationship_type := type
    relationship_subtype := if type = .family then some subtype else none
    archetype := some archetype
    cadence_days := if type = .partner then 1 else if type = .family then 7 else 14
    tags := [] }

/-- Modelled from the spec: whole calendar days between a past timestamp and
`now`, the elapsed-duration convention used throughout §4. -/
def daysSince (t now : Nat) : Nat := now / dayLen - t / dayLen

/-- The timestamp a relationship counts as last contacted: `last_interaction`
when present, otherwise its creation time (§4.1 edge cases). -/
def lastContact (r : Relationship) : Nat := r.last_interaction.getD r.created_at

/-- Modelled from the spec: the §4.3 candidate pool — all non-archived
relationships, excluding any contacted within their own `cadence_days`
window (already on track). -/
def candidatePool (rels : List Relationship) (now : Nat) : List Relationship :=
  rels.filter (fun r =>
    !r.archived && decide (r.cadence_days ≤ daysSince (lastContact r) now))

/-- Modelled from the spec: the §4.3 overdue ratio
`days_since_last_interaction / cadence_days`. -/
def urgency (r : Relationship) (now : Nat) : ℚ :=
  (daysSince (lastContact r) now : ℚ) / (r.cadence_days : ℚ)

/-- Modelled from the spec: the §4.3 ranking order — urgency descending,
then gravity_score ascending, remaining ties broken by id for determinism. -/
def rankedBefore (now : Nat) (a b : Relationship) : Bool :=
  if urgency b now < urgency a now then true
  else if urgency a now < urgency b now then false
  else if a.gravity_score < b.gravity_score then true
  else if b.gravity_score < a.gravity_score then false
  else a.id ≤ b.id

/-- Insertion step of the ranking sort. -/
def insertRanked (now : Nat) (r : Relationship) : List Relationship → List Relationship
  | [] => [r]
  | x :: xs => if rankedBefore now r x then r :: x :: xs else x :: insertRanked now r xs

/-- Modelled from the spec: sorting the candidate pool by the §4.3 ranking
key (insertion sort; the spec fixes only the order, not the algorithm). -/
def sortRanked (now : Nat) : List Relationship → List Relationship
  | [] => []
  | x :: xs => insertRanked now x (sortRanked now xs)

/-- Modelled from the spec: the §4.3 step function capping the number of
suggestions by battery score — at most 1 when ≤ 20, 2 when 21–50, 4 when
51–80, 6 when above 80. -/
def suggestCap (b : Nat) : Nat :=
  if b ≤ 20 then 1
  else if b ≤ 50 then 2
  else if b ≤ 80 then 4
  else 6

/-- Modelled from the spec: `suggest(relationships, battery_score)` of §4.3 —
rank the candidate pool and return at most `suggestCap battery` entries. -/
def suggest (rels : List Relationship) (battery : Nat) (now : Nat) : List Relationship :=
  (sortRanked now (candidatePool rels now)).take (suggestCap battery)

/-- The four energy bands of the battery prompt copy; each constructor stands
for the message shown by `BatteryPrompt` (BatteryWidget.jsx lines 79-82). -/
inductive BatteryBand
  | lowEnergy
  | moderate
  | good
  | fullCharge
deriving DecidableEq, Repr

/-- The band selection of `BatteryPrompt` (BatteryWidget.jsx lines 79-82):
score ≤ 20, 20 < score ≤ 50, 50 < score ≤ 80, score > 80. -/
def batteryBand (score : Nat) : BatteryBand :=
  if score ≤ 20 then .lowEnergy
  else if score ≤ 50 then .moderate
  else if score ≤ 80 then .good
  else .fullCharge

theorem clamp_nonneg (s : ℚ) : 0 ≤ clamp s := by
  unfold clamp; split_ifs <;> linarith

theorem clamp_le_hundred (s : ℚ) : clamp s ≤ 100 := by
  unfold clamp; split_ifs <;> linarith

/-- A sample relationship record used to instantiate the hypothesis-bearing
theorems below at concrete inputs. -/
def witnessRel : Relationship :=
  { id := 1
    relationship_type := .friend
    archetype := some .Anchor
    gravity_score := 50
    pinned := false
    archived := false
    cadence_days := 14
    last_interaction := none
    last_decay_applied := none
    created_at := 0 }

/-- Claim C1: every score produced by clamp lies in [0, 100], and both score
updates (decay application and interaction boost) keep the gravity score of a
relationship whose score is in range inside [0, 100]. -/
theorem gravity_score_range (s : ℚ) (r : Relationship) (now : Nat) (st : Strictness)
    (hlo : 0 ≤ r.gravity_score) (hhi : r.gravity_score ≤ 100) :
    (0 ≤ clamp s ∧ clamp s ≤ 100) ∧
    (0 ≤ (apply_decay r now st).gravity_score ∧
      (apply_decay r now st).gravity_score ≤ 100) ∧
    (0 ≤ (apply_interaction r now).gravity_score ∧
      (apply_interaction r now).gravity_score ≤ 100) := by
  refine ⟨⟨clamp_nonneg s, clamp_le_hundred s⟩, ?_, ?_⟩
  · unfold apply_decay
    split_ifs
    · exact ⟨hlo, hhi⟩
    · exact ⟨hlo, hhi⟩
    · exact ⟨clamp_nonneg _, clamp_le_hundred _⟩
  · exact ⟨clamp_nonneg _, clamp_le_hundred _⟩

theorem gravity_score_range_witness :
    (0 ≤ witnessRel.gravity_score ∧ witnessRel.gravity_score ≤ 100) ∧
    0 ≤ (apply_decay witnessRel 3000 .normal).gravity_score ∧
    0 ≤ (apply_interaction witnessRel 3000).gravity_score :=
  ⟨⟨by decide, by decide⟩,
    ((gravity_score_range 42 witnessRel 3000 .normal (by decide) (by decide)).2.1).1,
    ((gravity_score_range 42 witnessRel 3000 .normal (by decide) (by decide)).2.2).1⟩

/-- Claim C2: zone classification maps score ≥ 60 to inner, 30 ≤ score < 60
to goldilocks and score < 30 to outer, and every classifier in the program —
the spec-modelled backend `zone`, the universe-map grouping predicates, and
the profile page's gravity colour — uses exactly the thresholds 60 and 30. -/
theorem zone_classification (s : ℚ) :
    (zone s = .inner ↔ 60 ≤ s) ∧
    (zone s = .goldilocks ↔ 30 ≤ s ∧ s < 60) ∧
    (zone s = .outer ↔ s < 30) ∧
    (universeInnerPred s = true ↔ zone s = .inner) ∧
    (universeGoldilocksPred s = true ↔ zone s = .goldilocks) ∧
    (universeOuterPred s = true ↔ zone s = .outer) ∧
    (getGravityColor s = .gravityHigh ↔ zone s = .inner) ∧
    (getGravityColor s = .gravityMedium ↔ zone s = .goldilocks) ∧
    (getGravityColor s = .gravityLow ↔ zone s = .outer) := by
  unfold zone universeInnerPred universeGoldilocksPred universeOuterPred getGravityColor
  by_cases h1 : (60:ℚ) ≤ s <;> by_cases h2 : (30:ℚ) ≤ s <;>
    simp [h1, h2, not_le.mp, lt_iff_not_le]
  linarith

/-- Claim C3: decay is idempotent within a calendar day — for a non-pinned,
non-archived relationship, applying decay a second time at any `now'` in the
same calendar day as the first `now` returns the first result completely
unchanged (no field, timestamps included, is mutated). -/
theorem decay_idempotent_same_day (r : Relationship) (now now' : Nat) (st : Strictness)
    (hp : r.pinned = false) (ha : r.archived = false)
    (hd : now / dayLen = now' / dayLen) :
    apply_decay (apply_decay r now st) now' st = apply_decay r now st := by
  have hpa : (r.pinned || r.archived) = false := by simp [hp, ha]
  by_cases h1 : daysElapsed r now < 1
  · have hfst : apply_decay r now st = r := by
      unfold apply_decay; rw [hpa]; simp [h1]
    have h1' : daysElapsed r now' < 1 := by
      unfold daysElapsed at h1 ⊢; omega
    rw [hfst]
    unfold apply_decay; rw [hpa]; simp [h1']
  · have hfst : apply_decay r now st =
        { r with
          gravity_score := clamp (r.gravity_score -
            decay_rate r.relationship_type r.archetype st * (daysElapsed r now : ℚ))
          last_decay_applied := some now } := by
      unfold apply_decay; rw [hpa]; simp [h1]
    rw [hfst]
    set r' : Relationship :=
      { r with
        gravity_score := clamp (r.gravity_score -
          decay_rate r.relationship_type r.archetype st * (daysElapsed r now : ℚ))
        last_decay_applied := some now } with hr'
    have hb : now ≤ decayBaseline r' := by
      rw [hr']; unfold decayBaseline
      exact le_max_of_le_right (le_max_right _ _)
    have hdiv : now / dayLen ≤ decayBaseline r' / dayLen := Nat.div_le_div_right hb
    have h2 : daysElapsed r' now' < 1 := by
      unfold daysElapsed; omega
    have hpa' : (r'.pinned || r'.archived) = false := by rw [hr']; exact hpa
    unfold apply_decay; rw [hpa']; simp [h2]

theorem decay_idempotent_same_day_witness :
    witnessRel.pinned = false ∧ witnessRel.archived = false ∧
    3000 / dayLen = 3100 / dayLen ∧
    apply_decay (apply_decay witnessRel 3000 .normal) 3100 .normal =
      apply_decay witnessRel 3000 .normal :=
  ⟨rfl, rfl, by decide,
    decay_idempotent_same_day witnessRel 3000 3100 .normal rfl rfl (by decide)⟩

theorem decay_rate_pos (t : RelType) (a : Option Archetype) (st : Strictness) :
    0 < decay_rate t a st := by
  cases t <;> cases st <;> rcases a with _ | (_ | _ | _ | _) <;>
    norm_num [decay_rate, base_rate, archetype_multiplier, strictness_multiplier]

/-- Claim C4: score monotonicity of the two update operations — decay never
returns a gravity score above the input score (for scores ≥ 0, the spec
domain), and an interaction boost never returns one below the input score
(for scores ≤ 100). -/
theorem score_update_monotone (r : Relationship) (now : Nat) (st : Strictness) :
    (0 ≤ r.gravity_score →
      (apply_decay r now st).gravity_score ≤ r.gravity_score) ∧
    (r.gravity_score ≤ 100 →
      r.gravity_score ≤ (apply_interaction r now).gravity_score) := by
  constructor
  · intro h0
    unfold apply_decay
    split_ifs with hpin hday
    · exact le_refl _
    · exact le_refl _
    · have hrate : (0:ℚ) ≤ decay_rate r.relationship_type r.archetype st * (daysElapsed r now : ℚ) :=
        mul_nonneg (le_of_lt (decay_rate_pos _ _ _)) (Nat.cast_nonneg _)
      unfold clamp
      split_ifs <;> dsimp only <;> linarith
  · intro h100
    show r.gravity_score ≤ clamp (r.gravity_score + interactionBoost)
    unfold clamp interactionBoost
    split_ifs <;> linarith

theorem score_update_monotone_witness :
    0 ≤ witnessRel.gravity_score ∧
    (apply_decay witnessRel 3000 .normal).gravity_score ≤ witnessRel.gravity_score ∧
    witnessRel.gravity_score ≤ 100 ∧
    witnessRel.gravity_score ≤ (apply_interaction witnessRel 3000).gravity_score :=
  ⟨by decide, (score_update_monotone witnessRel 3000 .normal).1 (by decide),
    by decide, (score_update_monotone witnessRel 3000 .normal).2 (by decide)⟩

/-- A pinned sample relationship for instantiating the pinned-exemption
theorem. -/
def pinnedRel : Relationship :=
  { id := 2
    relationship_type := .partner
    archetype := none
    gravity_score := 10
    pinned := true
    archived := false
    cadence_days := 1
    last_interaction := some 100
    last_decay_applied := some 100
    created_at := 0 }

/-- Claim C5: pinned exemption — decay returns a pinned relationship
completely unchanged (every field, for any `now` and strictness), while an
interaction boost still applies to it: the score still becomes the clamped
boosted score and `last_interaction` is still set to `now`. -/
theorem pinned_exempt (r : Relationship) (now : Nat) (st : Strictness)
    (hp : r.pinned = true) :
    apply_decay r now st = r ∧
    (apply_interaction r now).gravity_score = clamp (r.gravity_score + interactionBoost) ∧
    (apply_interaction r now).last_interaction = some now := by
  refine ⟨?_, rfl, rfl⟩
  unfold apply_decay
  rw [hp]
  simp

theorem pinned_exempt_witness :
    pinnedRel.pinned = true ∧
    apply_decay pinnedRel 999999 .strict = pinnedRel ∧
    (apply_interaction pinnedRel 999999).last_interaction = some 999999 :=
  ⟨rfl, (pinned_exempt pinnedRel 999999 .strict rfl).1,
    (pinned_exempt pinnedRel 999999 .strict rfl).2.2⟩

/-- Claim C6: base decay rates are strictly ordered by relationship type —
partner < family < friend — and the full decay rate preserves that strict
order for every fixed archetype and strictness. -/
theorem base_rate_ordering :
    base_rate .partner < base_rate .family ∧
    base_rate .family < base_rate .friend ∧
    ∀ (a : Option Archetype) (st : Strictness),
      decay_rate .partner a st < decay_rate .family a st ∧
      decay_rate .family a st < decay_rate .friend a st := by
  refine ⟨by norm_num [base_rate], by norm_num [base_rate], ?_⟩
  intro a st
  rcases a with _ | (_ | _ | _ | _) <;> cases st <;>
    constructor <;>
      norm_num [decay_rate, base_rate, archetype_multiplier, strictness_multiplier]

theorem length_insertRanked (now : Nat) (r : Relationship) (l : List Relationship) :
    (insertRanked now r l).length = l.length + 1 := by
  induction l with
  | nil => rfl
  | cons x xs ih =>
    unfold insertRanked
    split_ifs <;> simp [ih]

theorem length_sortRanked (now : Nat) (l : List Relationship) :
    (sortRanked now l).length = l.length := by
  induction l with
  | nil => rfl
  | cons x xs ih =>
    unfold sortRanked
    rw [length_insertRanked, ih, List.length_cons]

/-- Claim C7: the number of suggestions is bounded by the battery-score step
function — at most 1 when b ≤ 20, at most 2 when 21 ≤ b ≤ 50, at most 4 when
51 ≤ b ≤ 80 and at most 6 when b > 80, for every candidate pool. -/
theorem suggest_count_bounds (rels : List Relationship) (b now : Nat) :
    (b ≤ 20 → (suggest rels b now).length ≤ 1) ∧
    (21 ≤ b ∧ b ≤ 50 → (suggest rels b now).length ≤ 2) ∧
    (51 ≤ b ∧ b ≤ 80 → (suggest rels b now).length ≤ 4) ∧
    (80 < b → (suggest rels b now).length ≤ 6) := by
  have key : (suggest rels b now).length ≤ suggestCap b := by
    unfold suggest
    rw [List.length_take]
    exact min_le_left _ _
  have hcap : ∀ c : Nat, suggestCap b = c → (suggest rels b now).length ≤ c := by
    intro c hc; rw [← hc]; exact key
  refine ⟨fun h => hcap 1 ?_, fun h => hcap 2 ?_, fun h => hcap 4 ?_, fun h => hcap 6 ?_⟩ <;>
    · unfold suggestCap
      split_ifs <;> omega

theorem suggest_count_bounds_witness :
    (15 ≤ 20 ∧ (suggest [witnessRel] 15 0).length ≤ 1) ∧
    ((21 ≤ 30 ∧ 30 ≤ 50) ∧ (suggest [witnessRel] 30 0).length ≤ 2) ∧
    ((51 ≤ 60 ∧ 60 ≤ 80) ∧ (suggest [witnessRel] 60 0).length ≤ 4) ∧
    (80 < 90 ∧ (suggest [witnessRel] 90 0).length ≤ 6) :=
  ⟨⟨by decide, (suggest_count_bounds [witnessRel] 15 0).1 (by decide)⟩,
    ⟨by decide, (suggest_count_bounds [witnessRel] 30 0).2.1 (by decide)⟩,
    ⟨by decide, (suggest_count_bounds [witnessRel] 60 0).2.2.1 (by decide)⟩,
    ⟨by decide, (suggest_count_bounds [witnessRel] 90 0).2.2.2 (by decide)⟩⟩

/-- Claim C8: at creation, `cadence_days` is derived from the relationship
type as partner = 1, family = 7, friend = 14, in both creation paths (the
universe-page modal and the onboarding form). -/
theorem cadence_days_from_type (name : String) (t : RelType) (sub : String)
    (a : Archetype) (tags : List String) :
    (addPlanetModalPayload name t sub a tags).cadence_days =
      (match t with | .partner => 1 | .family => 7 | .friend => 14) ∧
    (addPlanetFormPayload name t sub a).cadence_days =
      (match t with | .partner => 1 | .family => 7 | .friend => 14) := by
  cases t <;> exact ⟨rfl, rfl⟩

theorem filter_three_partition {α : Type} (f g h : α → Bool) (l : List α)
    (hx : ∀ a ∈ l, (f a).toNat + (g a).toNat + (h a).toNat = 1) :
    (l.filter f ++ l.filter g ++ l.filter h).Perm l := by
  induction l with
  | nil => simp
  | cons a t ih =>
    have ht : ∀ b ∈ t, (f b).toNat + (g b).toNat + (h b).toNat = 1 :=
      fun b hb => hx b (List.mem_cons_of_mem a hb)
    have ha := hx a (List.mem_cons_self a t)
    have iht := ih ht
    rcases hf : f a <;> rcases hg : g a <;> rcases hh : h a <;>
      simp only [hf, hg, hh, Bool.toNat_true, Bool.toNat_false] at ha
    · omega
    · have ef : (a :: t).filter f = t.filter f := by simp [hf]
      have eg : (a :: t).filter g = t.filter g := by simp [hg]
      have eh : (a :: t).filter h = a :: t.filter h := by simp [hh]
      rw [ef, eg, eh]
      have s1 : (t.filter f ++ t.filter g ++ a :: t.filter h).Perm
          (a :: (t.filter f ++ t.filter g ++ t.filter h)) := List.perm_middle
      exact s1.trans (iht.cons a)
    · have ef : (a :: t).filter f = t.filter f := by simp [hf]
      have eg : (a :: t).filter g = a :: t.filter g := by simp [hg]
      have eh : (a :: t).filter h = t.filter h := by simp [hh]
      rw [ef, eg, eh]
      have s1 : (t.filter f ++ (a :: t.filter g)).Perm (a :: (t.filter f ++ t.filter g)) :=
        List.perm_middle
      have s2 : ((t.filter f ++ (a :: t.filter g)) ++ t.filter h).Perm
          ((a :: (t.filter f ++ t.filter g)) ++ t.filter h) := s1.append_right _
      exact s2.trans (iht.cons a)
    · omega
    · have ef : (a :: t).filter f = a :: t.filter f := by simp [hf]
      have eg : (a :: t).filter g = t.filter g := by simp [hg]
      have eh : (a :: t).filter h = t.filter h := by simp [hh]
      rw [ef, eg, eh]
      exact iht.cons a
    · omega
    · omega
    · omega

theorem universe_preds_exactly_one (s : ℚ) :
    (universeInnerPred s).toNat + (universeGoldilocksPred s).toNat +
      (universeOuterPred s).toNat = 1 := by
  unfold universeInnerPred universeGoldilocksPred universeOuterPred
  by_cases h1 : (60:ℚ) ≤ s <;> by_cases h2 : (30:ℚ) ≤ s <;>
    simp [h1, h2, not_le.mp, lt_iff_not_le]
  linarith

/-- Claim C9: the universe map's zone grouping is a partition — each score
satisfies exactly one of the three grouping predicates, so the computed
`planetPositions` list is a permutation of the input people list: nobody is
dropped or duplicated on the rendered map. -/
theorem planetPositions_partition (people : List Relationship) :
    (planetPositions people).Perm people ∧
    ∀ s : ℚ, (universeInnerPred s).toNat + (universeGoldilocksPred s).toNat +
      (universeOuterPred s).toNat = 1 := by
  refine ⟨?_, universe_preds_exactly_one⟩
  unfold planetPositions
  exact filter_three_partition _ _ _ people
    (fun p _ => universe_preds_exactly_one p.gravity_score)

/-- Claim C10 counterexample: the two creation paths are not equivalent — for
a partner named Sam with archetype Anchor selected, the universe-page modal
sends a null archetype while the onboarding form sends Anchor. -/
theorem creation_paths_differ_on_partner :
    ¬ ((addPlanetModalPayload "Sam" .partner "" .Anchor []).archetype =
        (addPlanetFormPayload "Sam" .partner "" .Anchor).archetype) := by
  decide

/-- Claim C10 (amended): the two creation paths agree on relationship_type
and cadence_days for every input, and on archetype for family and friend;
for partner they differ — the modal sends null, the onboarding form sends
the selected archetype (Anchor by default). -/
theorem creation_paths_agreement (name : String) (t : RelType) (sub : String)
    (a : Archetype) (tags : List String) :
    (addPlanetModalPayload name t sub a tags).relationship_type =
      (addPlanetFormPayload name t sub a).relationship_type ∧
    (addPlanetModalPayload name t sub a tags).cadence_days =
      (addPlanetFormPayload name t sub a).cadence_days ∧
    (t ≠ .partner →
      (addPlanetModalPayload name t sub a tags).archetype =
        (addPlanetFormPayload name t sub a).archetype) ∧
    (t = .partner →
      (addPlanetModalPayload name t sub a tags).archetype = none ∧
      (addPlanetFormPayload name t sub a).archetype = some a) := by
  cases t <;> simp [addPlanetModalPayload, addPlanetFormPayload]

theorem creation_paths_agreement_witness :
    (RelType.family ≠ RelType.partner ∧
      (addPlanetModalPayload "Ana" .family "Mom" .Sage []).archetype =
        (addPlanetFormPayload "Ana" .family "Mom" .Sage).archetype) ∧
    (RelType.partner = RelType.partner ∧
      (addPlanetModalPayload "Ana" .partner "" .Anchor []).archetype = none) :=
  ⟨⟨by decide, (creation_paths_agreement "Ana" .family "Mom" .Sage []).2.2.1 (by decide)⟩,
    ⟨rfl, ((creation_paths_agreement "Ana" .partner "" .Anchor []).2.2.2 rfl).1⟩⟩
